import Mathlib

/-!
Verification of the Universal Google Drive ID Extractor.

The development shallowly embeds the extraction rule and the request
handlers of the repository:

* `extractGoogleDriveId` embeds `extractGoogleDriveId` from `src/api/index.js`
  together with its regular expression
  `GID_REGEX = (?:\/d\/|folders\/|id=)([a-zA-Z0-9_-]\x7b10,\x7d)`.
  JavaScript `String.match` with a non-global, non-anchored pattern scans the
  start positions of the string left to right and, at each position, tries
  the alternatives in order; the capture `[a-zA-Z0-9_-]\x7b10,\x7d` is greedy and
  nothing follows it in the pattern, so a successful match at a position
  captures the maximal run of allowed characters after the marker, provided
  that run has length at least 10.  `gidScan` implements exactly this
  left-to-right scan over the list of characters.

* `handler` embeds the dispatch and response logic of the default handler in
  `src/api/index.js` (batch check first, then single, then 400), including
  the JavaScript truthiness test `if (googleDriveID)` on the extracted value.

* `handler2` embeds the richer revision in `src/unnamed/part_000`
  (second handler there), whose batch items carry
  `index/input/googleDriveID/success/error` fields and whose response has
  `meta = \x7btotal, succeeded, failed\x7d` counts.

JavaScript runtime values reaching the handler are modelled by `JsValue`;
an absent (`undefined`) object field is modelled by `Option`.
-/

/-- A JSON-like JavaScript runtime value, as it can appear in a parsed
request body: string, number, boolean, null, array or object. -/
inductive JsValue where
  | null
  | bool (b : Bool)
  | num (n : Int)
  | str (s : String)
  | arr (elems : List JsValue)
  | obj (fields : List (String × JsValue))

/-- The character class `[a-zA-Z0-9_-]` of `GID_REGEX`. -/
def isIdChar (c : Char) : Bool :=
  (decide ('a' ≤ c) && decide (c ≤ 'z')) ||
  (decide ('A' ≤ c) && decide (c ≤ 'Z')) ||
  (decide ('0' ≤ c) && decide (c ≤ '9')) ||
  (c == '_') || (c == '-')

/-- The literal marker `/d/` of `GID_REGEX`. -/
def markerD : List Char := ['/', 'd', '/']

/-- The literal marker `folders/` of `GID_REGEX`. -/
def markerFolders : List Char := ['f', 'o', 'l', 'd', 'e', 'r', 's', '/']

/-- The literal marker `id=` of `GID_REGEX`. -/
def markerIdEq : List Char := ['i', 'd', '=']

/-- The minimum captured-run length `\x7b10,\x7d` of `GID_REGEX` in `src/api/index.js`. -/
def minIdLen : Nat := 10

/-- Try one alternative of `GID_REGEX` at the current position: the marker
`m` must be a literal prefix, and the greedy run of `[a-zA-Z0-9_-]`
characters right after it must have length at least `minIdLen`. -/
def tryMarker (m t : List Char) : Option (List Char) :=
  if m.isPrefixOf t then
    if minIdLen ≤ ((t.drop m.length).takeWhile isIdChar).length then
      some ((t.drop m.length).takeWhile isIdChar)
    else none
  else none

/-- Try the alternation `(?:\/d\/|folders\/|id=)` of `GID_REGEX` at the
current position, alternatives in source order. -/
def matchAt (t : List Char) : Option (List Char) :=
  match tryMarker markerD t with
  | some r => some r
  | none =>
    match tryMarker markerFolders t with
    | some r => some r
    | none => tryMarker markerIdEq t

/-- The non-anchored scan of `String.match`: try every start position left
to right, first success wins. -/
def gidScan : List Char → Option (List Char)
  | [] => none
  | c :: rest =>
    match matchAt (c :: rest) with
    | some r => some r
    | none => gidScan rest

/-- `extractGoogleDriveId` from `src/api/index.js`: non-strings give
`null`; a string is matched against `GID_REGEX` and the first capture group
is returned, `null` when there is no match. -/
def extractGoogleDriveId (input : JsValue) : Option String :=
  match input with
  | JsValue.str s => (gidScan s.data).map String.mk
  | _ => none

/-! Spec-side characterisation of the extraction rule, taken from the
claim's words: a position of the string qualifies when one of the three
markers occurs there, immediately followed by a run of allowed characters
meeting the minimum length; the extracted identifier is the greedy
(longest) run after the leftmost qualifying marker occurrence. -/

/-- Spec-side: some marker occurs at the head of `t`, immediately followed
by a long-enough run of `[a-zA-Z0-9_-]` characters. -/
def qualifiesHere (t : List Char) : Bool :=
  (markerD.isPrefixOf t &&
    decide (minIdLen ≤ ((t.drop markerD.length).takeWhile isIdChar).length)) ||
  (markerFolders.isPrefixOf t &&
    decide (minIdLen ≤ ((t.drop markerFolders.length).takeWhile isIdChar).length)) ||
  (markerIdEq.isPrefixOf t &&
    decide (minIdLen ≤ ((t.drop markerIdEq.length).takeWhile isIdChar).length))

/-- Spec-side: position `i` of `s` is a qualifying marker occurrence. -/
def qualifiesAt (s : List Char) (i : Nat) : Bool :=
  qualifiesHere (s.drop i)

/-- Spec-side: the greedy run of allowed characters right after the marker
occurring at the head of `t`. -/
def runHere (t : List Char) : List Char :=
  if markerD.isPrefixOf t then (t.drop markerD.length).takeWhile isIdChar
  else if markerFolders.isPrefixOf t then
    (t.drop markerFolders.length).takeWhile isIdChar
  else (t.drop markerIdEq.length).takeWhile isIdChar

/-- Spec-side: the greedy run after the marker occurring at position `i`. -/
def runAt (s : List Char) (i : Nat) : List Char :=
  runHere (s.drop i)

/-! The request adapter of `src/api/index.js`. -/

/-- A parsed POST request body, after JSON parsing: the `url` and `urls`
fields, each possibly absent (`undefined`). -/
structure Body where
  url : Option JsValue
  urls : Option JsValue

/-- `Array.isArray(x)` on a possibly-absent field: the array elements when
the field holds an array, `none` otherwise. -/
def isArr : Option JsValue → Option (List JsValue)
  | some (JsValue.arr xs) => some xs
  | _ => none

/-- `typeof x === "string"` on a possibly-absent field: the string when the
field holds one, `none` otherwise. -/
def asStr : Option JsValue → Option String
  | some (JsValue.str s) => some s
  | _ => none

/-- One entry of the batch `results` array of `src/api/index.js`:
`\x7b url: u, googleDriveID: extractGoogleDriveId(u) \x7d`. -/
structure BatchEntry where
  url : JsValue
  googleDriveID : Option String

/-- The responses the handler of `src/api/index.js` can produce on a parsed
body (CORS, method guard and body-parse failure are transport plumbing
outside the parsed-body dispatch). -/
inductive ApiResponse where
  | ok200single (googleDriveID : String)
  | notFound404 (error : String)
  | ok200batch (results : List BatchEntry)
  | badRequest400 (error : String)

/-- The HTTP status of each response. -/
def ApiResponse.statusCode : ApiResponse → Nat
  | ok200single _ => 200
  | notFound404 _ => 404
  | ok200batch _ => 200
  | badRequest400 _ => 400

/-- The 404 message of `src/api/index.js`. -/
def notFoundMsg : String :=
  "Could not find a valid Google Drive ID in the provided URL or text."

/-- The 400 message of `src/api/index.js`. -/
def badRequestMsg : String :=
  "Invalid request body. Expecting \x7b \"url\": \"...\" \x7d or \x7b \"urls\": [\"...\", ...] \x7d"

/-- The batch `results` array built by `urls.map(...)` in
`src/api/index.js`, lines 126-129. -/
def batchResults (xs : List JsValue) : List BatchEntry :=
  xs.map fun u => { url := u, googleDriveID := extractGoogleDriveId u }

/-- The single-mode block of `src/api/index.js`, lines 137-148.  The JS
test `if (googleDriveID)` is string truthiness: `null` and the empty string
both fall through to the 404 branch. -/
def singleModeResponse (s : String) : ApiResponse :=
  match extractGoogleDriveId (JsValue.str s) with
  | some gid =>
    if gid = "" then ApiResponse.notFound404 notFoundMsg
    else ApiResponse.ok200single gid
  | none => ApiResponse.notFound404 notFoundMsg

/-- The parsed-body dispatch of the handler in `src/api/index.js`:
`Array.isArray(urls)` first (batch), then `typeof url === "string"`
(single), else 400. -/
def handler (b : Body) : ApiResponse :=
  match isArr b.urls with
  | some xs => ApiResponse.ok200batch (batchResults xs)
  | none =>
    match asStr b.url with
    | some s => singleModeResponse s
    | none => ApiResponse.badRequest400 badRequestMsg

/-! The richer revision of the handler, `src/unnamed/part_000`
(second handler there): batch items carry index, input, id, success flag
and per-item error, and the response carries aggregate counts. -/

/-- One batch item of `src/unnamed/part_000`, lines 231-243. -/
structure BatchItem2 where
  index : Nat
  input : JsValue
  googleDriveID : Option String
  success : Bool
  error : Option String

/-- The `meta` aggregate of `src/unnamed/part_000`, lines 245-249. -/
structure BatchMeta where
  total : Nat
  succeeded : Nat
  failed : Nat

/-- The responses of the `src/unnamed/part_000` handler on a parsed body. -/
inductive ApiResponse2 where
  | ok200single (googleDriveID : Option String) (success : Bool) (error : Option String)
  | notFound404 (googleDriveID : Option String) (success : Bool) (error : Option String)
  | ok200batch (items : List BatchItem2) (meta : BatchMeta)
  | badRequest400 (success : Bool) (error : String)

/-- JavaScript truthiness of a string-or-null value: `Boolean(x)` is false
exactly on `null` and the empty string. -/
def strTruthy : Option String → Bool
  | some s => !(s == "")
  | none => false

/-- The per-item error message of `src/unnamed/part_000`. -/
def noIdMsg : String := "No valid Google Drive ID found in this input."

/-- One batch item of `src/unnamed/part_000`: `success` is
`Boolean(googleDriveID)` and `error` is `googleDriveID ? null : msg`. -/
def mkItem (idx : Nat) (input : JsValue) : BatchItem2 :=
  let googleDriveID := extractGoogleDriveId input
  { index := idx
    input := input
    googleDriveID := googleDriveID
    success := strTruthy googleDriveID
    error := if strTruthy googleDriveID then none else some noIdMsg }

/-- The `items` array of `src/unnamed/part_000`: an indexed map
`urls.map((input, index) => ...)`. -/
def batchItems (xs : List JsValue) : List BatchItem2 :=
  xs.enum.map fun p => mkItem p.1 p.2

/-- The `meta` counts of `src/unnamed/part_000`, lines 245-249. -/
def batchMeta (items : List BatchItem2) : BatchMeta :=
  { total := items.length
    succeeded := (items.filter fun i => i.success).length
    failed := (items.filter fun i => !i.success).length }

/-- The single-mode block of `src/unnamed/part_000`, with the same
truthiness test `if (googleDriveID)`. -/
def singleModeResponse2 (s : String) : ApiResponse2 :=
  match extractGoogleDriveId (JsValue.str s) with
  | some gid =>
    if gid = "" then ApiResponse2.notFound404 none false (some notFoundMsg)
    else ApiResponse2.ok200single (some gid) true none
  | none => ApiResponse2.notFound404 none false (some notFoundMsg)

/-- The 400 message of `src/unnamed/part_000`. -/
def badRequestMsg2 : String :=
  "Invalid request. Expected \x7b \"url\": \"...\" \x7d or \x7b \"urls\": [...] \x7d."

/-- The parsed-body dispatch of the `src/unnamed/part_000` handler: same
order as `src/api/index.js`. -/
def handler2 (b : Body) : ApiResponse2 :=
  match isArr b.urls with
  | some xs =>
    let items := batchItems xs
    ApiResponse2.ok200batch items (batchMeta items)
  | none =>
    match asStr b.url with
    | some s => singleModeResponse2 s
    | none => ApiResponse2.badRequest400 false badRequestMsg2

/-- Spec-side ExtractionResult invariant (spec §3): `succeeded` is true iff
the identifier is present and non-empty, and the error message is present
iff `succeeded` is false. -/
def ResultInvariant (g : Option String) (suc : Bool) (err : Option String) : Prop :=
  (suc = true ↔ ∃ x, g = some x ∧ x ≠ "") ∧ (err.isSome = true ↔ suc = false)

/-! Lemmas relating the scan of `GID_REGEX` to the spec-side
leftmost-qualifying-marker characterisation. -/

lemma tryMarker_eq_none_iff (m t : List Char) :
    tryMarker m t = none ↔
      (m.isPrefixOf t &&
        decide (minIdLen ≤ ((t.drop m.length).takeWhile isIdChar).length)) = false := by
  unfold tryMarker
  cases h : m.isPrefixOf t <;> simp [h]

lemma tryMarker_eq_some_iff (m t r : List Char) :
    tryMarker m t = some r ↔
      m.isPrefixOf t = true ∧
        minIdLen ≤ ((t.drop m.length).takeWhile isIdChar).length ∧
        r = (t.drop m.length).takeWhile isIdChar := by
  unfold tryMarker
  cases h : m.isPrefixOf t <;>
    by_cases hl : minIdLen ≤ ((t.drop m.length).takeWhile isIdChar).length <;>
      simp [h, hl, eq_comm]

lemma prefix_trans_le {m₁ m₂ t : List Char} (h₁ : m₁.isPrefixOf t = true)
    (h₂ : m₂.isPrefixOf t = true) (hlen : m₁.length ≤ m₂.length) :
    m₁.isPrefixOf m₂ = true := by
  rw [ List.isPrefixOf_iff_prefix] at h₁ h₂ ⊢
  exact List.prefix_of_prefix_length_le h₁ h₂ hlen

lemma folders_not_prefix_of_d {t : List Char} (h : markerD.isPrefixOf t = true) :
    markerFolders.isPrefixOf t = false := by
  by_contra hf
  rw [Bool.not_eq_false] at hf
  exact absurd (prefix_trans_le h hf (by decide)) (by decide)

lemma idEq_not_prefix_of_d {t : List Char} (h : markerD.isPrefixOf t = true) :
    markerIdEq.isPrefixOf t = false := by
  by_contra hf
  rw [Bool.not_eq_false] at hf
  exact absurd (prefix_trans_le h hf (by decide)) (by decide)

lemma idEq_not_prefix_of_folders {t : List Char}
    (h : markerFolders.isPrefixOf t = true) : markerIdEq.isPrefixOf t = false := by
  by_contra hf
  rw [Bool.not_eq_false] at hf
  exact absurd (prefix_trans_le hf h (by decide)) (by decide)

lemma matchAt_eq_none_iff (t : List Char) :
    matchAt t = none ↔ qualifiesHere t = false := by
  constructor
  · intro h
    unfold matchAt at h
    cases h1 : tryMarker markerD t with
    | some r => rw [h1] at h; exact absurd h (by simp)
    | none =>
      rw [h1] at h
      cases h2 : tryMarker markerFolders t with
      | some r => rw [h2] at h; exact absurd h (by simp)
      | none =>
        rw [h2] at h
        have b1 := (tryMarker_eq_none_iff markerD t).mp h1
        have b2 := (tryMarker_eq_none_iff markerFolders t).mp h2
        have b3 := (tryMarker_eq_none_iff markerIdEq t).mp h
        unfold qualifiesHere
        rw [b1, b2, b3]
        rfl
  · intro h
    unfold qualifiesHere at h
    have b1 := (Bool.or_eq_false_iff.mp (Bool.or_eq_false_iff.mp h).1).1
    have b2 := (Bool.or_eq_false_iff.mp (Bool.or_eq_false_iff.mp h).1).2
    have b3 := (Bool.or_eq_false_iff.mp h).2
    unfold matchAt
    rw [(tryMarker_eq_none_iff markerD t).mpr b1,
      (tryMarker_eq_none_iff markerFolders t).mpr b2,
      (tryMarker_eq_none_iff markerIdEq t).mpr b3]

lemma matchAt_eq_some_run (t : List Char) (h : qualifiesHere t = true) :
    matchAt t = some (runHere t) := by
  unfold qualifiesHere at h
  by_cases hd : markerD.isPrefixOf t = true
  · have hf := folders_not_prefix_of_d hd
    have hi := idEq_not_prefix_of_d hd
    rw [hd, hf, hi] at h
    simp only [Bool.true_and, Bool.false_and, Bool.or_false, Bool.false_or,
      decide_eq_true_eq] at h
    unfold matchAt runHere
    rw [(tryMarker_eq_some_iff markerD t _).mpr ⟨hd, h, rfl⟩, if_pos hd]
  · rw [Bool.not_eq_true] at hd
    by_cases hf : markerFolders.isPrefixOf t = true
    · have hi := idEq_not_prefix_of_folders hf
      rw [hd, hf, hi] at h
      simp only [Bool.true_and, Bool.false_and, Bool.or_false, Bool.false_or,
        decide_eq_true_eq] at h
      unfold matchAt runHere
      rw [(tryMarker_eq_none_iff markerD t).mpr (by rw [hd]; rfl),
        (tryMarker_eq_some_iff markerFolders t _).mpr ⟨hf, h, rfl⟩,
        if_neg (by rw [hd]; exact Bool.false_ne_true), if_pos hf]
    · rw [Bool.not_eq_true] at hf
      by_cases hi : markerIdEq.isPrefixOf t = true
      · rw [hd, hf, hi] at h
        simp only [Bool.true_and, Bool.false_and, Bool.or_false, Bool.false_or,
          decide_eq_true_eq] at h
        unfold matchAt runHere
        rw [(tryMarker_eq_none_iff markerD t).mpr (by rw [hd]; rfl),
          (tryMarker_eq_none_iff markerFolders t).mpr (by rw [hf]; rfl),
          (tryMarker_eq_some_iff markerIdEq t _).mpr ⟨hi, h, rfl⟩,
          if_neg (by rw [hd]; exact Bool.false_ne_true),
          if_neg (by rw [hf]; exact Bool.false_ne_true)]
      · rw [Bool.not_eq_true] at hi
        rw [hd, hf, hi] at h
        exact absurd h (by simp)

lemma gidScan_eq_none (s : List Char)
    (h : ∀ i, i < s.length → qualifiesAt s i = false) : gidScan s = none := by
  induction s with
  | nil => rfl
  | cons c rest ih =>
    have h0 : matchAt (c :: rest) = none :=
      (matchAt_eq_none_iff (c :: rest)).mpr (h 0 (Nat.succ_pos rest.length))
    simp only [gidScan, h0]
    exact ih (fun i hi => h (i + 1) (Nat.succ_lt_succ hi))

lemma gidScan_eq_some (s : List Char) (i : Nat) (hq : qualifiesAt s i = true)
    (hmin : ∀ j, j < i → qualifiesAt s j = false) :
    gidScan s = some (runAt s i) := by
  induction s generalizing i with
  | nil =>
    exfalso
    have hnil : qualifiesHere ([] : List Char) = true := by
      have : ([] : List Char).drop i = [] := List.drop_nil
      rw [qualifiesAt, this] at hq
      exact hq
    exact absurd hnil (by decide)
  | cons c rest ih =>
    cases i with
    | zero =>
      have h0 : matchAt (c :: rest) = some (runHere (c :: rest)) :=
        matchAt_eq_some_run (c :: rest) hq
      simp only [gidScan, h0]
      rfl
    | succ k =>
      have h0 : matchAt (c :: rest) = none :=
        (matchAt_eq_none_iff (c :: rest)).mpr (hmin 0 (Nat.succ_pos k))
      simp only [gidScan, h0]
      exact ih k hq (fun j hj => hmin (j + 1) (Nat.succ_lt_succ hj))

lemma gidScan_some_inv (s : List Char) (r : List Char) (h : gidScan s = some r) :
    ∃ i, matchAt (s.drop i) = some r := by
  induction s with
  | nil => exact absurd h (by simp [gidScan])
  | cons c rest ih =>
    cases hm : matchAt (c :: rest) with
    | some r2 =>
      simp only [gidScan, hm] at h
      injection h with h2
      exact ⟨0, by rw [List.drop_zero, hm, h2]⟩
    | none =>
      simp only [gidScan, hm] at h
      obtain ⟨i, hi⟩ := ih h
      exact ⟨i + 1, hi⟩

lemma matchAt_some_inv (t r : List Char) (h : matchAt t = some r) :
    ∃ m, (m = markerD ∨ m = markerFolders ∨ m = markerIdEq) ∧
      m.isPrefixOf t = true ∧ minIdLen ≤ r.length ∧
      r = (t.drop m.length).takeWhile isIdChar := by
  unfold matchAt at h
  cases h1 : tryMarker markerD t with
  | some r1 =>
    rw [h1] at h
    injection h with h2
    obtain ⟨hp, hl, hr⟩ := (tryMarker_eq_some_iff markerD t r1).mp h1
    exact ⟨markerD, Or.inl rfl, hp, h2 ▸ hr ▸ hl, h2 ▸ hr⟩
  | none =>
    rw [h1] at h
    cases h2 : tryMarker markerFolders t with
    | some r2 =>
      rw [h2] at h
      injection h with h3
      obtain ⟨hp, hl, hr⟩ := (tryMarker_eq_some_iff markerFolders t r2).mp h2
      exact ⟨markerFolders, Or.inr (Or.inl rfl), hp, h3 ▸ hr ▸ hl, h3 ▸ hr⟩
    | none =>
      rw [h2] at h
      obtain ⟨hp, hl, hr⟩ := (tryMarker_eq_some_iff markerIdEq t r).mp h
      exact ⟨markerIdEq, Or.inr (Or.inr rfl), hp, hr ▸ hl, hr⟩

lemma extract_str_some_inv (s : String) (gid : String)
    (h : extractGoogleDriveId (JsValue.str s) = some gid) :
    ∃ r, gidScan s.data = some r ∧ gid = String.mk r := by
  simp only [extractGoogleDriveId] at h
  cases hg : gidScan s.data with
  | none => rw [hg] at h; exact absurd h (by simp)
  | some r =>
    rw [hg] at h
    simp only [Option.map_some'] at h
    injection h with h2
    exact ⟨r, rfl, h2.symm⟩

lemma extract_some_spec (s : String) (gid : String)
    (h : extractGoogleDriveId (JsValue.str s) = some gid) :
    minIdLen ≤ gid.length ∧ (∀ c, c ∈ gid.data → isIdChar c = true) ∧
      ∃ i m, (m = markerD ∨ m = markerFolders ∨ m = markerIdEq) ∧
        (m ++ gid.data).isPrefixOf (s.data.drop i) = true := by
  obtain ⟨r, hscan, hgid⟩ := extract_str_some_inv s gid h
  obtain ⟨i, hi⟩ := gidScan_some_inv s.data r hscan
  obtain ⟨m, hm, hp, hl, hr⟩ := matchAt_some_inv (s.data.drop i) r hi
  have hdata : gid.data = r := by rw [hgid]
  refine ⟨?_, ?_, i, m, hm, ?_⟩
  · have hlen : gid.length = r.length := by rw [hgid]; rfl
    rw [hlen]
    exact hl
  · intro c hc
    rw [hdata, hr] at hc
    exact List.mem_takeWhile_imp hc
  · rw [hdata, List.isPrefixOf_iff_prefix]
    have hpf : m <+: s.data.drop i := List.isPrefixOf_iff_prefix.mp hp
    obtain ⟨t2, ht2⟩ := hpf
    have hdrop : (s.data.drop i).drop m.length = t2 := by
      rw [← ht2, List.drop_left]
    have hrt : r <+: t2 := by
      rw [hr, hdrop]
      exact List.takeWhile_prefix isIdChar
    obtain ⟨t3, ht3⟩ := hrt
    exact ⟨t3, by rw [List.append_assoc, ht3, ht2]⟩

lemma extract_some_ne_empty (v : JsValue) (gid : String)
    (h : extractGoogleDriveId v = some gid) : gid ≠ "" := by
  cases v with
  | str s =>
    intro hemp
    have hl := (extract_some_spec s gid h).1
    rw [hemp] at hl
    exact absurd hl (by decide)
  | null => exact absurd h (by simp [extractGoogleDriveId])
  | bool b => exact absurd h (by simp [extractGoogleDriveId])
  | num n => exact absurd h (by simp [extractGoogleDriveId])
  | arr xs => exact absurd h (by simp [extractGoogleDriveId])
  | obj fs => exact absurd h (by simp [extractGoogleDriveId])

lemma strTruthy_extract (v : JsValue) :
    strTruthy (extractGoogleDriveId v) = (extractGoogleDriveId v).isSome := by
  cases h : extractGoogleDriveId v with
  | none => rfl
  | some g =>
    have hne := extract_some_ne_empty v g h
    simp [strTruthy, hne]

/-! Helper lemmas about the adapter dispatch and the batch lists. -/

lemma isArr_eq_none_iff (o : Option JsValue) :
    isArr o = none ↔ ∀ xs, o ≠ some (JsValue.arr xs) := by
  cases o with
  | none => simp [isArr]
  | some v => cases v <;> simp [isArr]

lemma asStr_eq_none_iff (o : Option JsValue) :
    asStr o = none ↔ ∀ s, o ≠ some (JsValue.str s) := by
  cases o with
  | none => simp [asStr]
  | some v => cases v <;> simp [asStr]

lemma batchResults_get? (xs : List JsValue) (i : Nat) (u : JsValue)
    (h : xs.get? i = some u) :
    (batchResults xs).get? i =
      some { url := u, googleDriveID := extractGoogleDriveId u } := by
  unfold batchResults
  rw [List.get?_map, h]
  rfl

lemma filter_not_length {α : Type} (p : α → Bool) (l : List α) :
    (l.filter p).length + (l.filter fun a => !p a).length = l.length := by
  induction l with
  | nil => rfl
  | cons a l ih =>
    cases h : p a <;> simp [List.filter_cons, h] <;> omega

lemma enumFrom_mkItem_filter_length (p : BatchItem2 → Bool) (q : JsValue → Bool)
    (hpq : ∀ n u, p (mkItem n u) = q u) (n : Nat) (xs : List JsValue) :
    (((List.enumFrom n xs).map fun pr => mkItem pr.1 pr.2).filter p).length =
      (xs.filter q).length := by
  induction xs generalizing n with
  | nil => rfl
  | cons x l ih =>
    cases hqx : q x with
    | true =>
      have hp : p (mkItem n x) = true := (hpq n x).trans hqx
      simp [List.enumFrom, List.filter_cons, hp, hqx, ih (n + 1)]
    | false =>
      have hp : p (mkItem n x) = false := (hpq n x).trans hqx
      simp [List.enumFrom, List.filter_cons, hp, hqx, ih (n + 1)]

lemma batchItems_length (xs : List JsValue) : (batchItems xs).length = xs.length := by
  simp [batchItems]

lemma batchItems_succeeded_length (xs : List JsValue) :
    ((batchItems xs).filter fun i => i.success).length =
      (xs.filter fun u => (extractGoogleDriveId u).isSome).length := by
  unfold batchItems
  exact enumFrom_mkItem_filter_length (fun i => i.success)
    (fun u => (extractGoogleDriveId u).isSome)
    (fun n u => by simp [mkItem]; exact strTruthy_extract u) 0 xs

/-! Claim theorems. -/

/-- C1: on any string, extraction returns exactly the greedy run of allowed
characters after the leftmost qualifying marker occurrence (a marker
immediately followed by a run of `[A-Za-z0-9_-]` of length at least the
minimum 10), and returns absent when no position of the string has a
marker followed by a long-enough run. -/
theorem extract_leftmost_greedy (s : String) :
    ((∀ i, i < s.data.length → qualifiesAt s.data i = false) →
      extractGoogleDriveId (JsValue.str s) = none) ∧
    (∀ i, qualifiesAt s.data i = true →
      (∀ j, j < i → qualifiesAt s.data j = false) →
      extractGoogleDriveId (JsValue.str s) = some (String.mk (runAt s.data i))) := by
  constructor
  · intro h
    simp only [extractGoogleDriveId]
    rw [gidScan_eq_none s.data h]
    rfl
  · intro i hq hmin
    simp only [extractGoogleDriveId]
    rw [gidScan_eq_some s.data i hq hmin]
    rfl

/-- C1 witness: in `id=short/d/ABCDEFGHIJ` the `id=` marker at position 0
is followed by a too-short run, so the leftmost qualifying occurrence is
the `/d/` at position 8 and the captured run is `ABCDEFGHIJ`. -/
theorem extract_leftmost_greedy_witness :
    qualifiesAt "id=short/d/ABCDEFGHIJ".data 8 = true ∧
    extractGoogleDriveId (JsValue.str "id=short/d/ABCDEFGHIJ") = some "ABCDEFGHIJ" :=
  ⟨by decide,
    (extract_leftmost_greedy "id=short/d/ABCDEFGHIJ").2 8 (by decide) (by decide)⟩

/-- C2: extraction is total over arbitrary input values: every non-string
input yields absent.  (In this embedding `extractGoogleDriveId` is a total
Lean function, so it cannot raise on any input.) -/
theorem extract_nonstring_none (v : JsValue) (h : ∀ s, v ≠ JsValue.str s) :
    extractGoogleDriveId v = none := by
  cases v with
  | str s => exact absurd rfl (h s)
  | null => rfl
  | bool b => rfl
  | num n => rfl
  | arr xs => rfl
  | obj fs => rfl

/-- C2 witness: extraction on the number 42 returns absent. -/
theorem extract_nonstring_none_witness : extractGoogleDriveId (JsValue.num 42) = none :=
  extract_nonstring_none (JsValue.num 42) (fun s h => JsValue.noConfusion h)

/-- C8: whenever extraction returns an identifier, it is a non-empty
string of at least 10 characters, all drawn from `[A-Za-z0-9_-]`, and it
occurs verbatim in the input immediately after an occurrence of one of the
markers `/d/`, `folders/`, `id=`. -/
theorem extract_some_sound (s : String) (gid : String)
    (h : extractGoogleDriveId (JsValue.str s) = some gid) :
    gid ≠ "" ∧ 10 ≤ gid.length ∧ (∀ c, c ∈ gid.data → isIdChar c = true) ∧
      ∃ i m, (m = markerD ∨ m = markerFolders ∨ m = markerIdEq) ∧
        (m ++ gid.data).isPrefixOf (s.data.drop i) = true := by
  obtain ⟨h1, h2, h3⟩ := extract_some_spec s gid h
  exact ⟨extract_some_ne_empty (JsValue.str s) gid h, h1, h2, h3⟩

/-- C8 witness: the identifier extracted from `x/d/ABCDEFGHIJ123?q`. -/
theorem extract_some_sound_witness :
    "ABCDEFGHIJ123" ≠ "" ∧ 10 ≤ String.length "ABCDEFGHIJ123" ∧
      (∀ c, c ∈ "ABCDEFGHIJ123".data → isIdChar c = true) ∧
      ∃ i m, (m = markerD ∨ m = markerFolders ∨ m = markerIdEq) ∧
        (m ++ "ABCDEFGHIJ123".data).isPrefixOf ("x/d/ABCDEFGHIJ123?q".data.drop i) = true :=
  extract_some_sound "x/d/ABCDEFGHIJ123?q" "ABCDEFGHIJ123" (by decide)

/-- C9: a body whose `url` field is the empty string is handled in single
mode and yields the not-found response (status 404), not the
malformed-request response: the empty string passes the string type check
and extraction on it returns absent. -/
theorem empty_url_single_not_found :
    handler { url := some (JsValue.str ""), urls := none } =
      ApiResponse.notFound404 notFoundMsg ∧
    (handler { url := some (JsValue.str ""), urls := none }).statusCode = 404 :=
  ⟨rfl, rfl⟩

/-- C3: input-shape resolution on a parsed body is checked in a fixed
order, first match wins: a `urls` array gives batch mode even when `url`
is also present; otherwise a string `url` gives single mode; otherwise the
handler answers 400 without running any extraction. -/
theorem handler_dispatch_order (b : Body) :
    (∀ xs, b.urls = some (JsValue.arr xs) →
      handler b = ApiResponse.ok200batch (batchResults xs)) ∧
    ((∀ xs, b.urls ≠ some (JsValue.arr xs)) →
      ∀ s, b.url = some (JsValue.str s) → handler b = singleModeResponse s) ∧
    ((∀ xs, b.urls ≠ some (JsValue.arr xs)) →
      (∀ s, b.url ≠ some (JsValue.str s)) →
      handler b = ApiResponse.badRequest400 badRequestMsg) := by
  refine ⟨?_, ?_, ?_⟩
  · intro xs hx
    unfold handler
    rw [hx]
    rfl
  · intro hno s hs
    unfold handler
    rw [(isArr_eq_none_iff b.urls).mpr hno, hs]
    rfl
  · intro hno hns
    unfold handler
    rw [(isArr_eq_none_iff b.urls).mpr hno, (asStr_eq_none_iff b.url).mpr hns]

/-- C3 witness: a body carrying both a string `url` and an array `urls` is
processed in batch mode. -/
theorem handler_dispatch_order_witness :
    handler { url := some (JsValue.str "zz"), urls := some (JsValue.arr []) } =
      ApiResponse.ok200batch (batchResults []) :=
  (handler_dispatch_order
    { url := some (JsValue.str "zz"), urls := some (JsValue.arr []) }).1 [] rfl

/-- C4: in single mode the response agrees with the extraction rule on the
same string: the 200 response carries exactly the extracted identifier,
and the 404 response happens exactly when extraction returns absent. -/
theorem handler_single_agrees (b : Body) (hno : ∀ xs, b.urls ≠ some (JsValue.arr xs))
    (s : String) (hs : b.url = some (JsValue.str s)) :
    (∀ gid, extractGoogleDriveId (JsValue.str s) = some gid ↔
      handler b = ApiResponse.ok200single gid) ∧
    (extractGoogleDriveId (JsValue.str s) = none ↔
      handler b = ApiResponse.notFound404 notFoundMsg) := by
  have hb : handler b = singleModeResponse s := by
    unfold handler
    rw [(isArr_eq_none_iff b.urls).mpr hno, hs]
    rfl
  cases hx : extractGoogleDriveId (JsValue.str s) with
  | none =>
    have hsm : singleModeResponse s = ApiResponse.notFound404 notFoundMsg := by
      simp only [singleModeResponse, hx]
    rw [hb, hsm]
    constructor
    · intro gid
      simp [hx]
    · simp [hx]
  | some gid0 =>
    have hne : gid0 ≠ "" := extract_some_ne_empty (JsValue.str s) gid0 hx
    have hsm : singleModeResponse s = ApiResponse.ok200single gid0 := by
      simp only [singleModeResponse, hx]
      rw [if_neg hne]
    rw [hb, hsm]
    constructor
    · intro gid
      simp [hx]
    · simp [hx]

/-- C4 witness: a single-mode body with a matching URL gets the 200
response carrying the extracted identifier. -/
theorem handler_single_agrees_witness :
    handler { url := some (JsValue.str "/d/ABCDEFGHIJ"), urls := none } =
      ApiResponse.ok200single "ABCDEFGHIJ" :=
  ((handler_single_agrees { url := some (JsValue.str "/d/ABCDEFGHIJ"), urls := none }
    (fun xs h => Option.noConfusion h)
    "/d/ABCDEFGHIJ" rfl).1 "ABCDEFGHIJ").mp (by decide)

/-- C5: on any `urls` array the handler answers with a success status and
an order-preserving result list: one entry per input, and the entry at
position `i` carries the input element at position `i` unmodified together
with its extraction outcome. -/
theorem handler_batch_order_preserving (b : Body) (xs : List JsValue)
    (h : b.urls = some (JsValue.arr xs)) :
    (handler b).statusCode = 200 ∧
    handler b = ApiResponse.ok200batch (batchResults xs) ∧
    (batchResults xs).length = xs.length ∧
    (∀ i u, xs.get? i = some u →
      (batchResults xs).get? i =
        some { url := u, googleDriveID := extractGoogleDriveId u }) := by
  have hb : handler b = ApiResponse.ok200batch (batchResults xs) := by
    unfold handler
    rw [h]
    rfl
  refine ⟨by rw [hb]; rfl, hb, by simp [batchResults], ?_⟩
  intro i u hu
  exact batchResults_get? xs i u hu

/-- C5 witness: a two-element batch (one non-string element included)
answers 200 with entries in input order. -/
theorem handler_batch_order_preserving_witness :
    (handler ⟨none, some (JsValue.arr [JsValue.str "/d/ABCDEFGHIJ", JsValue.num 7])⟩).statusCode = 200 ∧
    (batchResults [JsValue.str "/d/ABCDEFGHIJ", JsValue.num 7]).get? 1 =
      some { url := JsValue.num 7, googleDriveID := extractGoogleDriveId (JsValue.num 7) } :=
  ⟨(handler_batch_order_preserving
      ⟨none, some (JsValue.arr [JsValue.str "/d/ABCDEFGHIJ", JsValue.num 7])⟩
      [JsValue.str "/d/ABCDEFGHIJ", JsValue.num 7] rfl).1,
    (handler_batch_order_preserving
      ⟨none, some (JsValue.arr [JsValue.str "/d/ABCDEFGHIJ", JsValue.num 7])⟩
      [JsValue.str "/d/ABCDEFGHIJ", JsValue.num 7] rfl).2.2.2 1 (JsValue.num 7) rfl⟩

/-- C6: on any `urls` array the `src/unnamed/part_000` handler's aggregate
counts satisfy `total = succeeded + failed`, `total` equals the input
length, `succeeded` counts the items whose extraction produced an
identifier, and an empty input gives an empty item list with all counts
zero. -/
theorem handler2_batch_counts (b : Body) (xs : List JsValue)
    (h : b.urls = some (JsValue.arr xs)) :
    handler2 b = ApiResponse2.ok200batch (batchItems xs) (batchMeta (batchItems xs)) ∧
    (batchMeta (batchItems xs)).total = xs.length ∧
    (batchMeta (batchItems xs)).total =
      (batchMeta (batchItems xs)).succeeded + (batchMeta (batchItems xs)).failed ∧
    (batchMeta (batchItems xs)).succeeded =
      (xs.filter fun u => (extractGoogleDriveId u).isSome).length ∧
    (xs = [] → batchItems xs = [] ∧ batchMeta (batchItems xs) = ⟨0, 0, 0⟩) := by
  refine ⟨?_, ?_, ?_, ?_, ?_⟩
  · unfold handler2
    rw [h]
    rfl
  · exact batchItems_length xs
  · exact (filter_not_length (fun i => i.success) (batchItems xs)).symm
  · exact batchItems_succeeded_length xs
  · intro hx
    subst hx
    exact ⟨rfl, rfl⟩

/-- C6 witness: a two-element batch, one matching and one non-string
element, has `total = succeeded + failed`. -/
theorem handler2_batch_counts_witness :
    (batchMeta (batchItems [JsValue.str "id=ABCDEFGHIJ", JsValue.num 1])).total =
      (batchMeta (batchItems [JsValue.str "id=ABCDEFGHIJ", JsValue.num 1])).succeeded +
        (batchMeta (batchItems [JsValue.str "id=ABCDEFGHIJ", JsValue.num 1])).failed :=
  (handler2_batch_counts
    ⟨none, some (JsValue.arr [JsValue.str "id=ABCDEFGHIJ", JsValue.num 1])⟩
    [JsValue.str "id=ABCDEFGHIJ", JsValue.num 1] rfl).2.2.1

/-- C7: every ExtractionResult produced (each batch item, and the
single-mode outcome of the `src/unnamed/part_000` handler) satisfies the
invariant: `success` is true iff the identifier is present and non-empty,
and the error message is present iff `success` is false. -/
theorem extraction_result_invariant (idx : Nat) (v : JsValue) (s : String) :
    ResultInvariant (mkItem idx v).googleDriveID (mkItem idx v).success
      (mkItem idx v).error ∧
    (∀ g suc err,
      (singleModeResponse2 s = ApiResponse2.ok200single g suc err ∨
        singleModeResponse2 s = ApiResponse2.notFound404 g suc err) →
      ResultInvariant g suc err) := by
  constructor
  · cases hx : extractGoogleDriveId v with
    | none => simp [mkItem, hx, strTruthy, ResultInvariant]
    | some g =>
      have hne : g ≠ "" := extract_some_ne_empty v g hx
      simp [mkItem, hx, strTruthy, ResultInvariant, hne]
  · intro g suc err hor
    cases hx : extractGoogleDriveId (JsValue.str s) with
    | none =>
      have hsm : singleModeResponse2 s =
          ApiResponse2.notFound404 none false (some notFoundMsg) := by
        simp only [singleModeResponse2, hx]
      rw [hsm] at hor
      rcases hor with h | h
      · exact absurd h (by simp)
      · injection h with h1 h2 h3
        subst h1
        subst h2
        subst h3
        simp [ResultInvariant]
    | some gid0 =>
      have hne : gid0 ≠ "" := extract_some_ne_empty (JsValue.str s) gid0 hx
      have hsm : singleModeResponse2 s =
          ApiResponse2.ok200single (some gid0) true none := by
        simp only [singleModeResponse2, hx]
        rw [if_neg hne]
      rw [hsm] at hor
      rcases hor with h | h
      · injection h with h1 h2 h3
        subst h1
        subst h2
        subst h3
        refine ⟨⟨fun _ => ⟨gid0, rfl, hne⟩, fun _ => rfl⟩, by simp⟩
      · exact absurd h (by simp)

/-- C7 witness: the batch item built from the non-string input 3 satisfies
the ExtractionResult invariant. -/
theorem extraction_result_invariant_witness :
    ResultInvariant (mkItem 0 (JsValue.num 3)).googleDriveID
      (mkItem 0 (JsValue.num 3)).success (mkItem 0 (JsValue.num 3)).error :=
  (extraction_result_invariant 0 (JsValue.num 3) "x").1

/-- C10: batch items are processed independently: two input sequences that
agree on the element at position `i` produce the same batch result entry
at position `i`, whatever the other elements are. -/
theorem batch_noninterference (xs ys : List JsValue) (i : Nat) (u : JsValue)
    (hx : xs.get? i = some u) (hy : ys.get? i = some u) :
    (batchResults xs).get? i = (batchResults ys).get? i ∧
    (batchResults xs).get? i =
      some { url := u, googleDriveID := extractGoogleDriveId u } := by
  have h1 := batchResults_get? xs i u hx
  have h2 := batchResults_get? ys i u hy
  exact ⟨h1.trans h2.symm, h1⟩

/-- C10 witness: two batches agreeing at position 0 give the same entry
at position 0. -/
theorem batch_noninterference_witness :
    (batchResults [JsValue.num 5]).get? 0 =
      (batchResults [JsValue.num 5, JsValue.str "zz"]).get? 0 :=
  (batch_noninterference [JsValue.num 5] [JsValue.num 5, JsValue.str "zz"] 0
    (JsValue.num 5) rfl rfl).1
